import Mathlib

/-!
# Sun-Earth-Moon: simulation core of `GLProject/ModelsMain.cpp`

A shallow embedding of the simulation part of `ModelsMain.cpp`: the global
control and shadow flags, the clock accumulator, the orbit polyline generator,
the body positions, the model matrices and the eclipse detector.

Modelling conventions.

* `float` values are read as elements of a linearly ordered field `α`
  (the theorems take `α := ℝ`); the `<cmath>` functions `cos`, `sin`, `sqrt`
  and the constant `glm::pi` are passed as arguments, so every definition is
  computable.
* The threshold test of the eclipse detector depends on rounding. For it the
  namespace `F32` gives IEEE 754 binary32 arithmetic on bit patterns (round to
  nearest, ties to even; each operation rounded on its own) and the detector
  block over it.
* The `glm` vector and matrix routines (`normalize`, `dot`, `translate`,
  `rotate`, `scale`, `operator*`) are transcribed from the library's generic
  (non-SIMD) implementation; `mat4` is column-major, as in `glm`.
* Window, camera, shader and GL buffer calls do not touch the simulation
  state and are left out.
-/

namespace SunEarthMoon

/-! ## Vectors (`glm::vec3`, `glm::vec4`) -/

/-- A `glm::vec3`. -/
structure Vec3 (α : Type) where
  x : α
  y : α
  z : α
deriving DecidableEq, Repr

/-- A `glm::vec4`. -/
structure Vec4 (α : Type) where
  x : α
  y : α
  z : α
  w : α
deriving DecidableEq, Repr

section Vectors

variable {α : Type} [LinearOrderedField α]

/-- Component-wise `vec3 + vec3`. -/
def Vec3.add (a b : Vec3 α) : Vec3 α :=
  ⟨a.x + b.x, a.y + b.y, a.z + b.z⟩

/-- Component-wise `vec3 - vec3`. -/
def Vec3.sub (a b : Vec3 α) : Vec3 α :=
  ⟨a.x - b.x, a.y - b.y, a.z - b.z⟩

/-- The product `vec3 * scalar`. -/
def Vec3.scale (a : Vec3 α) (k : α) : Vec3 α :=
  ⟨a.x * k, a.y * k, a.z * k⟩

/-- The product `scalar * vec3`. -/
def Vec3.lscale (k : α) (a : Vec3 α) : Vec3 α :=
  ⟨k * a.x, k * a.y, k * a.z⟩

/-- The function `glm::dot` on `vec3`: the sum of the component products. -/
def dot (a b : Vec3 α) : α :=
  a.x * b.x + a.y * b.y + a.z * b.z

/-- The function `glm::inversesqrt`: `1 / sqrt x`. -/
def inversesqrt (sqrt : α → α) (x : α) : α :=
  1 / sqrt x

/-- The function `glm::normalize`: `v * inversesqrt (dot v v)`. -/
def normalize (sqrt : α → α) (v : Vec3 α) : Vec3 α :=
  v.scale (inversesqrt sqrt (dot v v))

/-- The function `glm::length`: `sqrt (dot v v)`. -/
def length (sqrt : α → α) (v : Vec3 α) : α :=
  sqrt (dot v v)

/-- Component-wise `vec4 + vec4`. -/
def Vec4.add (a b : Vec4 α) : Vec4 α :=
  ⟨a.x + b.x, a.y + b.y, a.z + b.z, a.w + b.w⟩

/-- The product `vec4 * scalar`. -/
def Vec4.scale (a : Vec4 α) (k : α) : Vec4 α :=
  ⟨a.x * k, a.y * k, a.z * k, a.w * k⟩

end Vectors

/-! ## Global state (lines 30-46) -/

/-- The mutable globals of the program that the simulation reads or writes.
The initial values are those of `init`. -/
structure SimState (α : Type) where
  deltaTime : α
  lastFrame : α
  speedUp : Bool
  stopMotion : Bool
  speedUpG : Bool
  speedUpH : Bool
  stopRotation : Bool
  earthInShadow : Bool
  moonInShadow : Bool
  effectiveOrbitTime : α
deriving DecidableEq, Repr

/-- The keys polled by `processInput`, `true` meaning `GLFW_PRESS`. -/
structure Keys where
  escape : Bool
  w : Bool
  s : Bool
  a : Bool
  d : Bool
  h : Bool
  g : Bool
  j : Bool
deriving DecidableEq, Repr

section Simulation

variable {α : Type} [LinearOrderedField α]

/-- The global `orbitSpeed = 0.1f`. -/
def orbitSpeed : α := 0.1

/-- The global `acceleratedSpeed = 2.0f`. -/
def acceleratedSpeed : α := 2.0

/-- The initial values of the globals. -/
def init : SimState α :=
  { deltaTime := 0.0
    lastFrame := 0.0
    speedUp := false
    stopMotion := false
    speedUpG := false
    speedUpH := false
    stopRotation := false
    earthInShadow := false
    moonInShadow := false
    effectiveOrbitTime := 0.0 }

/-- The function `processInput` (lines 320-357). Escape and W/A/S/D act on the
window and the camera only; the H, G and J blocks run in this order. -/
def processInput (k : Keys) (s : SimState α) : SimState α :=
  let s1 :=
    if k.h then
      { s with speedUpH := true, speedUpG := false, stopMotion := false,
               stopRotation := false, earthInShadow := false }
    else s
  let s2 :=
    if k.g then
      { s1 with speedUpG := true, speedUpH := false, stopMotion := false,
                stopRotation := false, moonInShadow := false }
    else s1
  if k.j then
    { s2 with speedUpH := false, speedUpG := false, stopMotion := false,
              stopRotation := false, speedUp := false, earthInShadow := false,
              moonInShadow := false }
  else s2

/-- The clock accumulator (lines 155-158). -/
def clockUpdate (s : SimState α) : SimState α :=
  if !s.stopMotion then
    let speedMultiplier : α :=
      if s.speedUpH || s.speedUpG || s.speedUp then acceleratedSpeed / orbitSpeed else 1.0
    { s with effectiveOrbitTime := s.effectiveOrbitTime + s.deltaTime * orbitSpeed * speedMultiplier }
  else s

/-- The Earth position (lines 202-206). -/
def earthPos (cos sin : α → α) (effectiveOrbitTime : α) : Vec3 α :=
  ⟨20.0 * cos effectiveOrbitTime, 0.0, 10.0 * sin effectiveOrbitTime⟩

/-- The Moon position (lines 219-224). -/
def moonPos (cos sin : α → α) (effectiveOrbitTime : α) : Vec3 α :=
  let moonOrbitAngle := effectiveOrbitTime * 2.0
  (earthPos cos sin effectiveOrbitTime).add
    ⟨3.0 * cos moonOrbitAngle, 0.0, 3.0 * sin moonOrbitAngle⟩

/-- The value `dotProduct` of the detector (lines 285-290). -/
def dotProduct (sqrt : α → α) (earthPos moonPos : Vec3 α) : α :=
  let sunPos_XZ : Vec3 α := ⟨0.0, 0.0, 0.0⟩
  let V_SE := normalize sqrt (earthPos.sub sunPos_XZ)
  let V_EM := normalize sqrt (moonPos.sub earthPos)
  dot V_SE V_EM

/-- The eclipse detector block (lines 281-309). -/
def eclipseDetector (sqrt : α → α) (earthPos moonPos : Vec3 α) (s : SimState α) :
    SimState α :=
  if (s.speedUpH || s.speedUpG) && !s.stopRotation then
    let tolerance : α := 0.005
    let dotProduct := dotProduct sqrt earthPos moonPos
    let s1 :=
      if s.speedUpG then
        if dotProduct < -1.0 + tolerance then
          { s with stopRotation := true, stopMotion := true, earthInShadow := true,
                   speedUpG := false }
        else s
      else s
    if s1.speedUpH then
      if dotProduct > 1.0 - tolerance then
        { s1 with stopRotation := true, stopMotion := true, moonInShadow := true,
                  speedUpH := false }
      else s1
    else s1
  else s

/-- One iteration of the render loop (lines 148-309) on the simulation state:
the frame time is read, the input is processed, the clock advances, the body
positions are computed from the advanced clock and the detector runs. -/
def frameStep (cos sin sqrt : α → α) (currentFrame : α) (k : Keys) (s : SimState α) :
    SimState α :=
  let s0 := { s with deltaTime := currentFrame - s.lastFrame, lastFrame := currentFrame }
  let s1 := processInput k s0
  let s2 := clockUpdate s1
  let earthPos := earthPos cos sin s2.effectiveOrbitTime
  let moonPos := moonPos cos sin s2.effectiveOrbitTime
  eclipseDetector sqrt earthPos moonPos s2

/-- The state after a sequence of frames, each given by its frame time and the
keys held during it. -/
def runFrames (cos sin sqrt : α → α) (s : SimState α) : List (α × Keys) → SimState α
  | [] => s
  | (currentFrame, k) :: rest =>
      runFrames cos sin sqrt (frameStep cos sin sqrt currentFrame k s) rest

/-- The flag invariant of the frame loop. -/
def FlagInv {β : Type} (s : SimState β) : Prop :=
  ¬ (s.speedUpG = true ∧ s.speedUpH = true) ∧
  ¬ (s.earthInShadow = true ∧ s.moonInShadow = true) ∧
  (s.earthInShadow = true → s.speedUpH = false) ∧
  (s.moonInShadow = true → s.speedUpG = false)

/-- The state in which an Earth eclipse has frozen the scene at simulation
time `t`. -/
def frozenEarthEclipse (t : α) : SimState α :=
  { (init : SimState α) with
    earthInShadow := true, stopMotion := true, stopRotation := true, effectiveOrbitTime := t }

/-- The state right after the H key re-armed the scene at simulation time `t`,
with frame time `0`. -/
def armedH (t : α) : SimState α :=
  { (init : SimState α) with
    speedUpH := true, deltaTime := 0, lastFrame := 0, effectiveOrbitTime := t }

/-- Only the H key is held. -/
def keysH : Keys :=
  ⟨false, false, false, false, false, true, false, false⟩

/-- Only the W key is held. -/
def keysW : Keys :=
  ⟨false, true, false, false, false, false, false, false⟩

end Simulation

/-! ## Matrices (`glm::mat4`, column-major) -/

/-- A `glm::mat4`, given by its four columns `m[0]`, `m[1]`, `m[2]`, `m[3]`. -/
structure Mat4 (α : Type) where
  c0 : Vec4 α
  c1 : Vec4 α
  c2 : Vec4 α
  c3 : Vec4 α
deriving DecidableEq, Repr

section Matrices

variable {α : Type} [LinearOrderedField α]

/-- The constructor `mat4(1.0f)`: the identity matrix. -/
def Mat4.identity : Mat4 α :=
  ⟨⟨1, 0, 0, 0⟩, ⟨0, 1, 0, 0⟩, ⟨0, 0, 1, 0⟩, ⟨0, 0, 0, 1⟩⟩

/-- The product `mat4 * vec4`, a combination of the columns. -/
def Mat4.mulVec (m : Mat4 α) (v : Vec4 α) : Vec4 α :=
  (((m.c0.scale v.x).add (m.c1.scale v.y)).add (m.c2.scale v.z)).add (m.c3.scale v.w)

/-- The product `mat4 * mat4` of `glm`: column `j` of the result is
`m1 * (column j of m2)`. -/
def Mat4.mul (m1 m2 : Mat4 α) : Mat4 α :=
  ⟨m1.mulVec m2.c0, m1.mulVec m2.c1, m1.mulVec m2.c2, m1.mulVec m2.c3⟩

/-- The function `glm::translate (m, v)`. -/
def translate (m : Mat4 α) (v : Vec3 α) : Mat4 α :=
  { m with c3 := (((m.c0.scale v.x).add (m.c1.scale v.y)).add (m.c2.scale v.z)).add m.c3 }

/-- The function `glm::rotate (m, angle, v)`. -/
def rotate (cos sin sqrt : α → α) (m : Mat4 α) (angle : α) (v : Vec3 α) : Mat4 α :=
  let a := angle
  let c := cos a
  let s := sin a
  let axis := normalize sqrt v
  let temp := Vec3.lscale (1 - c) axis
  let r00 := c + temp.x * axis.x
  let r01 := temp.x * axis.y + s * axis.z
  let r02 := temp.x * axis.z - s * axis.y
  let r10 := temp.y * axis.x - s * axis.z
  let r11 := c + temp.y * axis.y
  let r12 := temp.y * axis.z + s * axis.x
  let r20 := temp.z * axis.x + s * axis.y
  let r21 := temp.z * axis.y - s * axis.x
  let r22 := c + temp.z * axis.z
  { c0 := ((m.c0.scale r00).add (m.c1.scale r01)).add (m.c2.scale r02)
    c1 := ((m.c0.scale r10).add (m.c1.scale r11)).add (m.c2.scale r12)
    c2 := ((m.c0.scale r20).add (m.c1.scale r21)).add (m.c2.scale r22)
    c3 := m.c3 }

/-- The function `glm::scale (m, v)`. -/
def scale (m : Mat4 α) (v : Vec3 α) : Mat4 α :=
  { c0 := m.c0.scale v.x
    c1 := m.c1.scale v.y
    c2 := m.c2.scale v.z
    c3 := m.c3 }

/-- The constructor `vec3(s)` with one scalar: all three components are `s`. -/
def vec3 (s : α) : Vec3 α :=
  ⟨s, s, s⟩

/-- The local `earthRotationSpeed` (line 208). -/
def earthRotationSpeed (stopRotation : Bool) : α :=
  if stopRotation then 0.0 else 0.5

/-- The local `moonRotationSpeed` (line 209). -/
def moonRotationSpeed (stopRotation : Bool) : α :=
  if stopRotation then 0.0 else 0.5

/-- The matrix `modelSun` (lines 175-176). -/
def modelSun : Mat4 α :=
  let modelSun : Mat4 α := Mat4.identity
  scale modelSun (vec3 4.0)

/-- The matrix `modelEarth` (lines 241-244); `time` is the wall-clock time of
the frame. -/
def modelEarth (cos sin sqrt : α → α) (effectiveOrbitTime time : α) (stopRotation : Bool) :
    Mat4 α :=
  let modelEarth : Mat4 α := Mat4.identity
  let modelEarth := translate modelEarth (earthPos cos sin effectiveOrbitTime)
  let modelEarth := rotate cos sin sqrt modelEarth (time * earthRotationSpeed stopRotation) ⟨0, 1, 0⟩
  scale modelEarth (vec3 1.0)

/-- The matrix `modelMoon` (lines 264-267): translated, then scaled, then
rotated. -/
def modelMoon (cos sin sqrt : α → α) (effectiveOrbitTime time : α) (stopRotation : Bool) :
    Mat4 α :=
  let modelMoon : Mat4 α := Mat4.identity
  let modelMoon := translate modelMoon (moonPos cos sin effectiveOrbitTime)
  let modelMoon := scale modelMoon (vec3 0.4)
  rotate cos sin sqrt modelMoon (time * moonRotationSpeed stopRotation) ⟨0.0, 1.0, 0.0⟩

end Matrices

/-! ## Orbit polyline (lines 52-72) -/

section Orbit

variable {α : Type} [LinearOrderedField α]

/-- The conversion `static_cast<int>` of a `size_t`: reduction to the 32-bit
two's complement range. -/
def castInt (n : Nat) : Int :=
  ((n : Int) + 2 ^ 31) % 2 ^ 32 - 2 ^ 31

/-- The function `createOrbitVAO` (lines 52-72): the vertex list uploaded to
the buffer, and the returned count. The GL handle is left out. A negative
`segments` makes `verts.reserve` throw, modelled by `none`. -/
def createOrbitVAO (cos sin : α → α) (pi : α) (segments : Int) (radiusX radiusZ : α) :
    Option (List (Vec3 α) × Int) :=
  if segments < 0 then none
  else
    let verts : List (Vec3 α) :=
      (List.range segments.toNat).foldl
        (fun (verts : List (Vec3 α)) (i : Nat) =>
          let theta := 2.0 * pi * (i : α) / (segments : α)
          let x := radiusX * cos theta
          let z := radiusZ * sin theta
          verts ++ [⟨x, 0.0, z⟩])
        []
    some (verts, castInt verts.length)

end Orbit

/-! ## IEEE 754 binary32 arithmetic (`float`) -/

/-- A `float`, given by its 32-bit pattern: one sign bit, eight exponent bits
and twenty-three fraction bits. -/
structure F32 where
  bits : Nat
deriving DecidableEq, Repr

namespace F32

/-- The sign bit. -/
def signBit (x : F32) : Nat :=
  x.bits / 2 ^ 31 % 2

/-- The biased exponent field. -/
def expField (x : F32) : Nat :=
  x.bits / 2 ^ 23 % 256

/-- The fraction field. -/
def fracField (x : F32) : Nat :=
  x.bits % 2 ^ 23

/-- Not-a-number: exponent field `255` with a non-zero fraction. -/
def isNaN (x : F32) : Bool :=
  x.expField == 255 && x.fracField != 0

/-- Infinity: exponent field `255` with a zero fraction. -/
def isInf (x : F32) : Bool :=
  x.expField == 255 && x.fracField == 0

/-- The integer significand of a finite value: the value is
`± sig * 2 ^ (ex - 150)`. Subnormals have no hidden bit. -/
def sig (x : F32) : Nat :=
  if x.expField = 0 then x.fracField else x.fracField + 2 ^ 23

/-- The biased exponent of the last place of a finite value: the value is
`± sig * 2 ^ (ex - 150)`. -/
def ex (x : F32) : Nat :=
  if x.expField = 0 then 1 else x.expField

/-- The default quiet NaN. -/
def nan : F32 :=
  ⟨0x7fc00000⟩

/-- The infinity of the given sign. -/
def inf (sign : Nat) : F32 :=
  ⟨sign * 2 ^ 31 + 0x7f800000⟩

/-- The zero of the given sign. -/
def zero (sign : Nat) : F32 :=
  ⟨sign * 2 ^ 31⟩

/-- The number of binary digits of `n`; the first argument bounds the number
of steps. -/
def bitLength : Nat → Nat → Nat
  | 0, _ => 0
  | fuel + 1, n => if n = 0 then 0 else bitLength fuel (n / 2) + 1

/-- Assemble a result from its sign, its rounded significand `sig ≤ 2 ^ 24` and
the biased exponent `q ≥ 1` of its last place; a result beyond the largest
finite value is an infinity. -/
def pack (sign sig : Nat) (q : Int) : F32 :=
  let body := (q - 1).toNat * 2 ^ 23 + sig
  if body ≥ 255 * 2 ^ 23 then inf sign else ⟨sign * 2 ^ 31 + body⟩

/-- Round the exact value `± m * 2 ^ (e - 150)` to the nearest `float`, ties to
even. -/
def round (sign m : Nat) (e : Int) : F32 :=
  if m = 0 then zero sign
  else
    let n : Int := bitLength m m
    let q : Int := max (e + n - 24) 1
    if q ≤ e then pack sign (m * 2 ^ (e - q).toNat) q
    else
      let sh := (q - e).toNat
      let sig0 := m / 2 ^ sh
      let rem := m % 2 ^ sh
      let half := 2 ^ (sh - 1)
      let up := decide (rem > half) || (rem == half && sig0 % 2 == 1)
      pack sign (if up then sig0 + 1 else sig0) q

/-- Round the exact value `± (num / den) * 2 ^ (e - 150)`, `den > 0`. The
quotient is taken to at least 64 bits and a non-zero remainder is recorded in
an extra last bit, which leaves the rounding unchanged. -/
def roundQuot (sign num den : Nat) (e : Int) : F32 :=
  let k := 64 + bitLength den den
  let q := num * 2 ^ k / den
  let r := num * 2 ^ k % den
  round sign (2 * q + (if r = 0 then 0 else 1)) (e - k - 1)

/-- A decimal literal `m * 10 ^ (-d)` of type `float`, such as `0.005f`. -/
def lit (m d : Nat) : F32 :=
  roundQuot 0 m (10 ^ d) 150

/-- Unary minus: the sign bit is flipped. -/
def neg (x : F32) : F32 :=
  ⟨(x.bits + 2 ^ 31) % 2 ^ 32⟩

/-- The product `a * b`. -/
def mul (a b : F32) : F32 :=
  let s := (a.signBit + b.signBit) % 2
  if a.isNaN || b.isNaN then nan
  else if a.isInf then (if b.sig = 0 then nan else inf s)
  else if b.isInf then (if a.sig = 0 then nan else inf s)
  else round s (a.sig * b.sig) ((a.ex : Int) + b.ex - 150)

/-- The sum `a + b`. -/
def add (a b : F32) : F32 :=
  if a.isNaN || b.isNaN then nan
  else if a.isInf then (if b.isInf && a.signBit != b.signBit then nan else a)
  else if b.isInf then b
  else
    let e := min a.ex b.ex
    let ma : Int := ((a.sig * 2 ^ (a.ex - e) : Nat) : Int)
    let mb : Int := ((b.sig * 2 ^ (b.ex - e) : Nat) : Int)
    let v : Int := (if a.signBit = 1 then -ma else ma) + (if b.signBit = 1 then -mb else mb)
    if v = 0 then (if a.signBit = 1 && b.signBit = 1 then zero 1 else zero 0)
    else round (if v < 0 then 1 else 0) v.natAbs e

/-- The difference `a - b`. -/
def sub (a b : F32) : F32 :=
  add a (neg b)

/-- The quotient `a / b`. -/
def div (a b : F32) : F32 :=
  let s := (a.signBit + b.signBit) % 2
  if a.isNaN || b.isNaN then nan
  else if a.isInf then (if b.isInf then nan else inf s)
  else if b.isInf then zero s
  else if b.sig = 0 then (if a.sig = 0 then nan else inf s)
  else roundQuot s a.sig b.sig ((a.ex : Int) - b.ex + 150)

/-- The integer square root, found bit by bit from position `i - 1` down. -/
def isqrtLoop (n : Nat) : Nat → Nat → Nat
  | 0, r => r
  | i + 1, r => isqrtLoop n i (if (r + 2 ^ i) ^ 2 ≤ n then r + 2 ^ i else r)

/-- The integer square root of `n`. -/
def isqrt (n : Nat) : Nat :=
  isqrtLoop n (bitLength n n) 0

/-- The function `sqrt` on `float`, correctly rounded. The root is taken to at
least 32 bits and an inexact root is recorded in an extra last bit. -/
def sqrt (a : F32) : F32 :=
  if a.isNaN then nan
  else if a.sig = 0 then a
  else if a.signBit = 1 then nan
  else if a.isInf then a
  else
    let k : Nat := if a.ex % 2 = 0 then 64 else 65
    let m := a.sig * 2 ^ k
    let r := isqrt m
    round 0 (2 * r + (if r * r = m then 0 else 1)) (((a.ex : Int) - 150 - (k : Int)) / 2 - 1 + 150)

/-- The integer `± sig * 2 ^ (ex - 1)`, which orders the values that are not
NaN. -/
def key (x : F32) : Int :=
  let v : Int := ((x.sig * 2 ^ (x.ex - 1) : Nat) : Int)
  if x.signBit = 1 then -v else v

/-- The comparison `a < b`; false when an operand is NaN. -/
def lt (a b : F32) : Bool :=
  !(a.isNaN || b.isNaN) && decide (a.key < b.key)

/-- The comparison `a > b`; false when an operand is NaN. -/
def gt (a b : F32) : Bool :=
  lt b a

/-- The real number (element of an ordered field) that a finite `float`
denotes. -/
def toField {α : Type} [LinearOrderedField α] (x : F32) : α :=
  (if x.signBit = 1 then -1 else 1) * (x.sig : α) * (2 : α) ^ ((x.ex : Int) - 150)

/-- The vector of the numbers that the components denote. -/
def toVec {α : Type} [LinearOrderedField α] (v : Vec3 F32) : Vec3 α :=
  ⟨toField v.x, toField v.y, toField v.z⟩

/-- Component-wise `vec3 - vec3` on `float`. -/
def vsub (a b : Vec3 F32) : Vec3 F32 :=
  ⟨sub a.x b.x, sub a.y b.y, sub a.z b.z⟩

/-- Component-wise `vec3 + vec3` on `float`. -/
def vadd (a b : Vec3 F32) : Vec3 F32 :=
  ⟨add a.x b.x, add a.y b.y, add a.z b.z⟩

/-- The function `glm::dot` on `vec3`: the three products are rounded, then
summed left to right. -/
def dot (a b : Vec3 F32) : F32 :=
  add (add (mul a.x b.x) (mul a.y b.y)) (mul a.z b.z)

/-- The function `glm::inversesqrt`: `1 / sqrt x`. -/
def inversesqrt (x : F32) : F32 :=
  div (lit 1 0) (sqrt x)

/-- The function `glm::normalize`: `v * inversesqrt (dot v v)`. -/
def normalize (v : Vec3 F32) : Vec3 F32 :=
  let k := inversesqrt (dot v v)
  ⟨mul v.x k, mul v.y k, mul v.z k⟩

/-- The Earth position (lines 202-206) in `float`; `cos` and `sin` are the
`<cmath>` functions. -/
def earthPos (cos sin : F32 → F32) (effectiveOrbitTime : F32) : Vec3 F32 :=
  ⟨mul (lit 200 1) (cos effectiveOrbitTime), lit 0 1, mul (lit 100 1) (sin effectiveOrbitTime)⟩

/-- The Moon position (lines 219-224) in `float`. -/
def moonPos (cos sin : F32 → F32) (effectiveOrbitTime : F32) : Vec3 F32 :=
  let moonOrbitAngle := mul effectiveOrbitTime (lit 20 1)
  vadd (earthPos cos sin effectiveOrbitTime)
    ⟨mul (lit 30 1) (cos moonOrbitAngle), lit 0 1, mul (lit 30 1) (sin moonOrbitAngle)⟩

/-- The value `dotProduct` of the detector (lines 285-290) in `float`. -/
def dotProduct (earthPos moonPos : Vec3 F32) : F32 :=
  let sunPos_XZ : Vec3 F32 := ⟨lit 0 1, lit 0 1, lit 0 1⟩
  let V_SE := normalize (vsub earthPos sunPos_XZ)
  let V_EM := normalize (vsub moonPos earthPos)
  dot V_SE V_EM

/-- The eclipse detector block (lines 281-309) in `float`: the rounded
`dotProduct` is compared with the rounded sums `-1.0f + tolerance` and
`1.0f - tolerance`. -/
def eclipseDetector (earthPos moonPos : Vec3 F32) (s : SimState F32) : SimState F32 :=
  if (s.speedUpH || s.speedUpG) && !s.stopRotation then
    let tolerance : F32 := lit 5 3
    let dotProduct := dotProduct earthPos moonPos
    let s1 :=
      if s.speedUpG then
        if lt dotProduct (add (neg (lit 10 1)) tolerance) then
          { s with stopRotation := true, stopMotion := true, earthInShadow := true,
                   speedUpG := false }
        else s
      else s
    if s1.speedUpH then
      if gt dotProduct (sub (lit 10 1) tolerance) then
        { s1 with stopRotation := true, stopMotion := true, moonInShadow := true,
                  speedUpH := false }
      else s1
    else s1
  else s

/-- The initial values of the globals, in `float`. -/
def init : SimState F32 :=
  { deltaTime := lit 0 1
    lastFrame := lit 0 1
    speedUp := false
    stopMotion := false
    speedUpG := false
    speedUpH := false
    stopRotation := false
    earthInShadow := false
    moonInShadow := false
    effectiveOrbitTime := lit 0 1 }

/-- The initial state with `speedUpG` set. -/
def armedG : SimState F32 :=
  { init with speedUpG := true }

/-- The initial state with `speedUpH` set. -/
def armedH : SimState F32 :=
  { init with speedUpH := true }

/-- The simulation time `0x4044cabb` (about `3.0748737`). -/
def boundaryTime : F32 :=
  ⟨0x4044cabb⟩

/-- The Earth position that lines 202-206 compute at `boundaryTime`, about
`(-19.955503, 0, 0.666695)`. -/
def boundaryEarth : Vec3 F32 :=
  ⟨⟨0xc19fa4df⟩, ⟨0x00000000⟩, ⟨0x3f2aac82⟩⟩

/-- The Moon position that lines 219-224 compute at `boundaryTime`, about
`(-16.982172, 0, 0.267568)`. -/
def boundaryMoon : Vec3 F32 :=
  ⟨⟨0xc187db7d⟩, ⟨0x00000000⟩, ⟨0x3e88fea8⟩⟩

/-- The Earth position `(-20, 0, 0)` of `t = π`. -/
def piEarth : Vec3 F32 :=
  ⟨neg (lit 200 1), lit 0 1, lit 0 1⟩

/-- The Moon position `(-17, 0, 0)` of `t = π`. -/
def piMoon : Vec3 F32 :=
  ⟨neg (lit 170 1), lit 0 1, lit 0 1⟩

/-- The simulation time `0x40490fdb`, the `float` nearest to `π`. -/
def nearPiTime : F32 :=
  ⟨0x40490fdb⟩

/-- The Earth position that lines 202-206 compute at `nearPiTime`, about
`(-20, 0, -8.74e-7)`. -/
def nearPiEarth : Vec3 F32 :=
  ⟨⟨0xc1a00000⟩, ⟨0x00000000⟩, ⟨0xb56aac7a⟩⟩

/-- The Moon position that lines 219-224 compute at `nearPiTime`, about
`(-17, 0, -3.50e-7)`. -/
def nearPiMoon : Vec3 F32 :=
  ⟨⟨0xc1880000⟩, ⟨0x00000000⟩, ⟨0xb4bbbd30⟩⟩

/-- The Earth position `(20, 0, 0)` of `t = 0`. -/
def zeroEarth : Vec3 F32 :=
  ⟨lit 200 1, lit 0 1, lit 0 1⟩

/-- The Moon position `(23, 0, 0)` of `t = 0`. -/
def zeroMoon : Vec3 F32 :=
  ⟨lit 230 1, lit 0 1, lit 0 1⟩

end F32

/-! ## Auxiliary lemmas -/

section Lemmas

variable {α : Type} [LinearOrderedField α]

/-- When the detector changes the state, the result has `stopRotation` set. -/
theorem eclipseDetector_eq_or_stopped (sqrt : α → α) (e m : Vec3 α) (s : SimState α) :
    eclipseDetector sqrt e m s = s ∨ (eclipseDetector sqrt e m s).stopRotation = true := by
  unfold eclipseDetector
  simp only []
  split_ifs <;> simp

/-- A state with `stopRotation` set is left alone by the detector. -/
theorem eclipseDetector_of_stopped (sqrt : α → α) (e m : Vec3 α) (s : SimState α)
    (h : s.stopRotation = true) : eclipseDetector sqrt e m s = s := by
  unfold eclipseDetector
  simp [h]

/-- The detector only ever sets the shadow and stop flags. -/
theorem eclipseDetector_mono (sqrt : α → α) (e m : Vec3 α) (s : SimState α) :
    (s.earthInShadow = true → (eclipseDetector sqrt e m s).earthInShadow = true) ∧
    (s.moonInShadow = true → (eclipseDetector sqrt e m s).moonInShadow = true) ∧
    (s.stopMotion = true → (eclipseDetector sqrt e m s).stopMotion = true) ∧
    (s.stopRotation = true → (eclipseDetector sqrt e m s).stopRotation = true) := by
  unfold eclipseDetector
  simp only []
  split_ifs <;> simp

/-- The clock accumulator changes no flag. -/
theorem clockUpdate_flags (s : SimState α) :
    (clockUpdate s).speedUp = s.speedUp ∧ (clockUpdate s).stopMotion = s.stopMotion ∧
    (clockUpdate s).speedUpG = s.speedUpG ∧ (clockUpdate s).speedUpH = s.speedUpH ∧
    (clockUpdate s).stopRotation = s.stopRotation ∧
    (clockUpdate s).earthInShadow = s.earthInShadow ∧
    (clockUpdate s).moonInShadow = s.moonInShadow := by
  unfold clockUpdate
  split_ifs <;> simp

theorem flagInv_init : FlagInv (init : SimState α) := by
  simp [FlagInv, init]

theorem flagInv_processInput {β : Type} (k : Keys) (s : SimState β) (h : FlagInv s) :
    FlagInv (processInput k s) := by
  obtain ⟨dt, lf, su, sm, g, hh, sr, es, ms, t⟩ := s
  obtain ⟨ke, kw, ks, ka, kd, kh, kg, kj⟩ := k
  simp only [FlagInv] at h
  unfold processInput FlagInv
  cases kh <;> cases kg <;> cases kj <;> simp_all

theorem flagInv_clockUpdate (s : SimState α) (h : FlagInv s) : FlagInv (clockUpdate s) := by
  obtain ⟨h1, h2, h3, h4, h5, h6, h7⟩ := clockUpdate_flags s
  unfold FlagInv at *
  rw [h3, h4, h6, h7]
  exact h

theorem flagInv_eclipseDetector (sqrt : α → α) (e m : Vec3 α) (s : SimState α)
    (h : FlagInv s) : FlagInv (eclipseDetector sqrt e m s) := by
  obtain ⟨dt, lf, su, sm, g, hh, sr, es, ms, t⟩ := s
  simp only [FlagInv] at h
  unfold eclipseDetector FlagInv
  simp only []
  cases g <;> cases hh <;> cases es <;> cases ms <;> simp_all <;> split_ifs <;> simp_all

theorem flagInv_frameStep (cos sin sqrt : α → α) (currentFrame : α) (k : Keys)
    (s : SimState α) (h : FlagInv s) :
    FlagInv (frameStep cos sin sqrt currentFrame k s) := by
  unfold frameStep
  apply flagInv_eclipseDetector
  apply flagInv_clockUpdate
  apply flagInv_processInput
  exact h

theorem flagInv_runFrames (cos sin sqrt : α → α) (frames : List (α × Keys)) :
    ∀ s : SimState α, FlagInv s → FlagInv (runFrames cos sin sqrt s frames) := by
  induction frames with
  | nil => intro s h; exact h
  | cons f rest ih =>
      intro s h
      obtain ⟨currentFrame, k⟩ := f
      exact ih _ (flagInv_frameStep cos sin sqrt currentFrame k s h)

end Lemmas

/-! ## Auxiliary lemmas over the reals -/

section RealLemmas

theorem earthPos_real (t : ℝ) :
    earthPos Real.cos Real.sin t = ⟨20 * Real.cos t, 0, 10 * Real.sin t⟩ := by
  simp only [earthPos, Vec3.mk.injEq]
  norm_num

theorem moonPos_real (t : ℝ) :
    moonPos Real.cos Real.sin t =
      ⟨20 * Real.cos t + 3 * Real.cos (2 * t), 0, 10 * Real.sin t + 3 * Real.sin (2 * t)⟩ := by
  simp only [moonPos, earthPos, Vec3.add, Vec3.mk.injEq]
  rw [mul_comm t]
  norm_num

/-- The value `dotProduct` at simulation time `t`, with `N` the distance of the
Earth from the Sun. -/
theorem dotProduct_real (t : ℝ) :
    dotProduct Real.sqrt (earthPos Real.cos Real.sin t) (moonPos Real.cos Real.sin t) =
      (20 * Real.cos t * (3 * Real.cos (2 * t)) + 10 * Real.sin t * (3 * Real.sin (2 * t))) /
        (3 * Real.sqrt (400 * Real.cos t ^ 2 + 100 * Real.sin t ^ 2)) := by
  have h9 : Real.sqrt ((3 * Real.cos (2 * t)) * (3 * Real.cos (2 * t)) + 0 * 0 +
      (3 * Real.sin (2 * t)) * (3 * Real.sin (2 * t))) = 3 := by
    have : (3 * Real.cos (2 * t)) * (3 * Real.cos (2 * t)) + 0 * 0 +
        (3 * Real.sin (2 * t)) * (3 * Real.sin (2 * t)) = 3 ^ 2 := by
      nlinarith [Real.sin_sq_add_cos_sq (2 * t)]
    rw [this, Real.sqrt_sq (by norm_num)]
  rw [earthPos_real, moonPos_real]
  simp only [dotProduct, normalize, inversesqrt, dot, Vec3.sub, Vec3.scale]
  have e1 : (20 * Real.cos t + 3 * Real.cos (2 * t) - 20 * Real.cos t) = 3 * Real.cos (2 * t) := by
    ring
  have e2 : (10 * Real.sin t + 3 * Real.sin (2 * t) - 10 * Real.sin t) = 3 * Real.sin (2 * t) := by
    ring
  have e3 : (0 : ℝ) - 0 = 0 := by norm_num
  have e4 : (0.0 : ℝ) = 0 := by norm_num
  rw [e4, e1, e2, e3, h9]
  have e5 : (20 * Real.cos t - 0) * (20 * Real.cos t - 0) + 0 * 0 +
      (10 * Real.sin t - 0) * (10 * Real.sin t - 0) =
      400 * Real.cos t ^ 2 + 100 * Real.sin t ^ 2 := by ring
  rw [e5]
  have hN : 0 < Real.sqrt (400 * Real.cos t ^ 2 + 100 * Real.sin t ^ 2) := by
    apply Real.sqrt_pos.mpr
    nlinarith [Real.sin_sq_add_cos_sq t, sq_nonneg (Real.cos t), sq_nonneg (Real.sin t)]
  field_simp
  ring

/-- At `t = π` the two unit vectors are exactly anti-parallel. -/
theorem dotProduct_pi :
    dotProduct Real.sqrt (earthPos Real.cos Real.sin Real.pi)
      (moonPos Real.cos Real.sin Real.pi) = -1 := by
  rw [dotProduct_real]
  have h400 : Real.sqrt (400 * Real.cos Real.pi ^ 2 + 100 * Real.sin Real.pi ^ 2) = 20 := by
    have : (400 * Real.cos Real.pi ^ 2 + 100 * Real.sin Real.pi ^ 2 : ℝ) = 20 ^ 2 := by
      simp; norm_num
    rw [this, Real.sqrt_sq (by norm_num)]
  rw [h400]
  simp
  norm_num

end RealLemmas

/-! ## The eclipse detector -/

section Detector

/-- The real `dotProduct` of two positions in the XZ plane is below
`-1 + 0.005` when the Earth-to-Moon vector `D` and the Earth position `E`
satisfy `E · D < 0` and `0.995² |E|² |D|² < (E · D)²`. -/
theorem dotProduct_lt_of_sq (ex ez mx mz : ℝ)
    (hP : ex * (mx - ex) + ez * (mz - ez) < 0)
    (hE : 0 < ex * ex + ez * ez)
    (hD : 0 < (mx - ex) * (mx - ex) + (mz - ez) * (mz - ez))
    (hq : (995 / 1000) ^ 2 *
        ((ex * ex + ez * ez) * ((mx - ex) * (mx - ex) + (mz - ez) * (mz - ez))) <
      (ex * (mx - ex) + ez * (mz - ez)) ^ 2) :
    dotProduct Real.sqrt ⟨ex, 0, ez⟩ ⟨mx, 0, mz⟩ < -1 + 0.005 := by
  have h0 : (0.0 : ℝ) = 0 := by norm_num
  simp only [dotProduct, normalize, inversesqrt, dot, Vec3.sub, Vec3.scale, h0]
  have eE : (ex - 0) * (ex - 0) + (0 - 0) * (0 - 0) + (ez - 0) * (ez - 0) =
      ex * ex + ez * ez := by ring
  have eD : (mx - ex) * (mx - ex) + (0 - 0) * (0 - 0) + (mz - ez) * (mz - ez) =
      (mx - ex) * (mx - ex) + (mz - ez) * (mz - ez) := by ring
  rw [eE, eD]
  set A := Real.sqrt (ex * ex + ez * ez) with hAdef
  set B := Real.sqrt ((mx - ex) * (mx - ex) + (mz - ez) * (mz - ez)) with hBdef
  have hA : 0 < A := Real.sqrt_pos.mpr hE
  have hB : 0 < B := Real.sqrt_pos.mpr hD
  have hA2 : A * A = ex * ex + ez * ez := Real.mul_self_sqrt hE.le
  have hB2 : B * B = (mx - ex) * (mx - ex) + (mz - ez) * (mz - ez) := Real.mul_self_sqrt hD.le
  have hAB : 0 < A * B := mul_pos hA hB
  have hAB2 : (A * B) * (A * B) =
      (ex * ex + ez * ez) * ((mx - ex) * (mx - ex) + (mz - ez) * (mz - ez)) := by
    rw [← hA2, ← hB2]; ring
  have key : ex * (mx - ex) + ez * (mz - ez) < (-1 + 0.005) * (A * B) := by
    by_contra hcon
    push_neg at hcon
    have h1 : -(ex * (mx - ex) + ez * (mz - ez)) ≤ (995 / 1000) * (A * B) := by
      norm_num at hcon ⊢
      linarith
    have h2 : 0 ≤ -(ex * (mx - ex) + ez * (mz - ez)) := by linarith
    have h3 := mul_le_mul h1 h1 h2 (by positivity)
    rw [← hAB2] at hq
    nlinarith
  have hform : (ex - 0) * (1 / A) * ((mx - ex) * (1 / B)) +
      (0 - 0) * (1 / A) * ((0 - 0) * (1 / B)) + (ez - 0) * (1 / A) * ((mz - ez) * (1 / B)) =
      (ex * (mx - ex) + ez * (mz - ez)) / (A * B) := by
    field_simp
  rw [hform, div_lt_iff₀ hAB]
  exact key

/-- The numbers that the positions computed at `boundaryTime` denote. -/
theorem toVec_boundary :
    (F32.toVec F32.boundaryEarth : Vec3 ℝ) = ⟨-10462431 / 2 ^ 19, 0, 11185282 / 2 ^ 24⟩ ∧
    (F32.toVec F32.boundaryMoon : Vec3 ℝ) = ⟨-8903549 / 2 ^ 19, 0, 8978088 / 2 ^ 25⟩ := by
  constructor
  · simp [F32.toVec, F32.boundaryEarth, F32.toField, F32.signBit, F32.sig, F32.ex,
      F32.expField, F32.fracField]
    norm_num
  · simp [F32.toVec, F32.boundaryMoon, F32.toField, F32.signBit, F32.sig, F32.ex,
      F32.expField, F32.fracField]
    norm_num

/-- With `cosf` and `sinf` returning the correctly rounded values at
`boundaryTime` and at twice that time, lines 202-224 compute the positions
`boundaryEarth` and `boundaryMoon`. -/
theorem boundary_positions (cos sin : F32 → F32)
    (hc : cos F32.boundaryTime = ⟨0xbf7f6e31⟩) (hs : sin F32.boundaryTime = ⟨0x3d888a02⟩)
    (hc2 : cos (F32.mul F32.boundaryTime (F32.lit 20 1)) = ⟨0x3f7db969⟩)
    (hs2 : sin (F32.mul F32.boundaryTime (F32.lit 20 1)) = ⟨0xbe083c3d⟩) :
    F32.earthPos cos sin F32.boundaryTime = F32.boundaryEarth ∧
    F32.moonPos cos sin F32.boundaryTime = F32.boundaryMoon := by
  simp only [F32.moonPos, F32.earthPos, hc, hs, hc2, hs2]
  decide!

/-- With `cosf` and `sinf` returning the correctly rounded values at
`nearPiTime` and at twice that time, lines 202-224 compute the positions
`nearPiEarth` and `nearPiMoon`. -/
theorem nearPi_positions (cos sin : F32 → F32)
    (hc : cos F32.nearPiTime = ⟨0xbf800000⟩) (hs : sin F32.nearPiTime = ⟨0xb3bbbd2e⟩)
    (hc2 : cos (F32.mul F32.nearPiTime (F32.lit 20 1)) = ⟨0x3f800000⟩)
    (hs2 : sin (F32.mul F32.nearPiTime (F32.lit 20 1)) = ⟨0x343bbd2e⟩) :
    F32.earthPos cos sin F32.nearPiTime = F32.nearPiEarth ∧
    F32.moonPos cos sin F32.nearPiTime = F32.nearPiMoon := by
  simp only [F32.moonPos, F32.earthPos, hc, hs, hc2, hs2]
  decide!

/-- C1, counterexample. At the `float` positions that the program computes for
`effectiveOrbitTime = 0x4044cabb`, the exact value of
`dot (normalize earthPos, normalize (moonPos - earthPos))` is below
`-1 + 0.005`, `stopRotation` is false and `speedUpG` is set; but the `float`
value of `dotProduct` and the `float` sum `-1.0f + tolerance` are both
`0xbf7eb852`, the comparison `<` fails and the detector changes no flag. -/
theorem detector_misses_at_threshold :
    dotProduct Real.sqrt (F32.toVec F32.boundaryEarth) (F32.toVec F32.boundaryMoon)
      < -1 + 0.005 ∧
    F32.armedG.stopRotation = false ∧ F32.armedG.speedUpG = true ∧
    F32.dotProduct F32.boundaryEarth F32.boundaryMoon = ⟨0xbf7eb852⟩ ∧
    F32.add (F32.neg (F32.lit 10 1)) (F32.lit 5 3) = ⟨0xbf7eb852⟩ ∧
    (F32.eclipseDetector F32.boundaryEarth F32.boundaryMoon F32.armedG).earthInShadow
      = false ∧
    F32.eclipseDetector F32.boundaryEarth F32.boundaryMoon F32.armedG = F32.armedG := by
  refine ⟨?_, rfl, rfl, by decide!, by decide!, by decide!, by decide!⟩
  rw [toVec_boundary.1, toVec_boundary.2]
  apply dotProduct_lt_of_sq <;> norm_num

/-- C1, amended. For every state with `stopRotation = false` and every pair of
`float` body positions, with `dotProduct` the `float` value the program
computes for `dot (normalize (earthPos - sunPos), normalize (moonPos - earthPos))`:
(i) if `speedUpG` is set and `dotProduct < -1.0f + 0.005f` holds in `float`,
the detector leaves `earthInShadow`, `stopRotation`, `stopMotion` set and
`speedUpG` cleared; (ii) if `speedUpH` is set and `dotProduct > 1.0f - 0.005f`
holds in `float`, it leaves `moonInShadow`, `stopRotation`, `stopMotion` set and
`speedUpH` cleared. The positions `(-20, 0, 0)`, `(-17, 0, 0)` of `t = π`, and
those the program computes at the `float` nearest to `π`, give
`dotProduct = -1.0f` exactly and fire case (i). -/
theorem detector_trigger_float (s : SimState F32) (e m : Vec3 F32)
    (hrot : s.stopRotation = false) :
    (s.speedUpG = true →
      F32.lt (F32.dotProduct e m) (F32.add (F32.neg (F32.lit 10 1)) (F32.lit 5 3)) = true →
      (F32.eclipseDetector e m s).earthInShadow = true ∧
      (F32.eclipseDetector e m s).stopRotation = true ∧
      (F32.eclipseDetector e m s).stopMotion = true ∧
      (F32.eclipseDetector e m s).speedUpG = false) ∧
    (s.speedUpH = true →
      F32.gt (F32.dotProduct e m) (F32.sub (F32.lit 10 1) (F32.lit 5 3)) = true →
      (F32.eclipseDetector e m s).moonInShadow = true ∧
      (F32.eclipseDetector e m s).stopRotation = true ∧
      (F32.eclipseDetector e m s).stopMotion = true ∧
      (F32.eclipseDetector e m s).speedUpH = false) ∧
    F32.dotProduct e m =
      F32.dot (F32.normalize (F32.vsub e ⟨F32.lit 0 1, F32.lit 0 1, F32.lit 0 1⟩))
        (F32.normalize (F32.vsub m e)) ∧
    F32.dotProduct F32.piEarth F32.piMoon = F32.neg (F32.lit 10 1) ∧
    F32.dotProduct F32.nearPiEarth F32.nearPiMoon = F32.neg (F32.lit 10 1) ∧
    (s.speedUpG = true →
      (F32.eclipseDetector F32.piEarth F32.piMoon s).earthInShadow = true ∧
      (F32.eclipseDetector F32.piEarth F32.piMoon s).stopRotation = true ∧
      (F32.eclipseDetector F32.piEarth F32.piMoon s).stopMotion = true ∧
      (F32.eclipseDetector F32.piEarth F32.piMoon s).speedUpG = false) ∧
    (s.speedUpG = true →
      (F32.eclipseDetector F32.nearPiEarth F32.nearPiMoon s).earthInShadow = true ∧
      (F32.eclipseDetector F32.nearPiEarth F32.nearPiMoon s).stopRotation = true ∧
      (F32.eclipseDetector F32.nearPiEarth F32.nearPiMoon s).stopMotion = true ∧
      (F32.eclipseDetector F32.nearPiEarth F32.nearPiMoon s).speedUpG = false) := by
  have key : ∀ e m : Vec3 F32, s.speedUpG = true →
      F32.lt (F32.dotProduct e m) (F32.add (F32.neg (F32.lit 10 1)) (F32.lit 5 3)) = true →
      (F32.eclipseDetector e m s).earthInShadow = true ∧
      (F32.eclipseDetector e m s).stopRotation = true ∧
      (F32.eclipseDetector e m s).stopMotion = true ∧
      (F32.eclipseDetector e m s).speedUpG = false := by
    intro e m hG hd
    unfold F32.eclipseDetector
    simp only [hrot, hG, hd]
    simp only [Bool.or_true, Bool.not_false, Bool.and_self, if_true]
    split_ifs <;> simp
  have hpi : F32.dotProduct F32.piEarth F32.piMoon = F32.neg (F32.lit 10 1) := by decide!
  have hnear : F32.dotProduct F32.nearPiEarth F32.nearPiMoon = F32.neg (F32.lit 10 1) := by
    decide!
  have hlt : F32.lt (F32.neg (F32.lit 10 1))
      (F32.add (F32.neg (F32.lit 10 1)) (F32.lit 5 3)) = true := by decide!
  refine ⟨key e m, ?_, rfl, hpi, hnear, ?_, ?_⟩
  · intro hH hd
    unfold F32.eclipseDetector
    simp only [hrot, hH]
    simp only [Bool.true_or, Bool.not_false, Bool.and_self, if_true]
    split_ifs <;> simp_all
  · intro hG
    apply key _ _ hG
    rw [hpi]
    exact hlt
  · intro hG
    apply key _ _ hG
    rw [hnear]
    exact hlt

/-- Witness for C1, amended: case (i) at the positions of `t = π` and case (ii)
at the positions of `t = 0`, each from the initial state with one flag armed. -/
theorem detector_trigger_float_witness :
    ((F32.eclipseDetector F32.piEarth F32.piMoon F32.armedG).earthInShadow = true ∧
      (F32.eclipseDetector F32.piEarth F32.piMoon F32.armedG).stopRotation = true ∧
      (F32.eclipseDetector F32.piEarth F32.piMoon F32.armedG).stopMotion = true ∧
      (F32.eclipseDetector F32.piEarth F32.piMoon F32.armedG).speedUpG = false) ∧
    ((F32.eclipseDetector F32.zeroEarth F32.zeroMoon F32.armedH).moonInShadow = true ∧
      (F32.eclipseDetector F32.zeroEarth F32.zeroMoon F32.armedH).stopRotation = true ∧
      (F32.eclipseDetector F32.zeroEarth F32.zeroMoon F32.armedH).stopMotion = true ∧
      (F32.eclipseDetector F32.zeroEarth F32.zeroMoon F32.armedH).speedUpH = false) :=
  ⟨(detector_trigger_float F32.armedG F32.piEarth F32.piMoon rfl).1 rfl (by decide!),
   (detector_trigger_float F32.armedH F32.zeroEarth F32.zeroMoon rfl).2.1 rfl (by decide!)⟩

/-- C5. The detector is idempotent on every state, for every fixed pair of body
positions; in particular from a state with `earthInShadow` set and `speedUpG`
cleared a second run changes no flag. -/
theorem eclipseDetector_idempotent (s : SimState ℝ) (e m : Vec3 ℝ) :
    eclipseDetector Real.sqrt e m (eclipseDetector Real.sqrt e m s) =
      eclipseDetector Real.sqrt e m s := by
  rcases eclipseDetector_eq_or_stopped Real.sqrt e m s with h | h
  · rw [h, h]
  · exact eclipseDetector_of_stopped Real.sqrt e m _ h

end Detector

/-! ## The clock, the body positions and the input mapper -/

section Frame

/-- C2. The clock leaves `effectiveOrbitTime` unchanged when `stopMotion` is
set; otherwise it adds `deltaTime * orbitSpeed * m`, with
`m = acceleratedSpeed / orbitSpeed` when one of `speedUpH`, `speedUpG`,
`speedUp` is set and `m = 1` otherwise: an increase of `deltaTime * 0.1`
without acceleration and of `deltaTime * 2` with it. -/
theorem clockUpdate_rule (s : SimState ℝ) :
    (s.stopMotion = true → (clockUpdate s).effectiveOrbitTime = s.effectiveOrbitTime) ∧
    (s.stopMotion = false →
      (clockUpdate s).effectiveOrbitTime =
        s.effectiveOrbitTime + s.deltaTime * orbitSpeed *
          (if s.speedUpH = true ∨ s.speedUpG = true ∨ s.speedUp = true
            then acceleratedSpeed / orbitSpeed else 1)) ∧
    (s.stopMotion = false → s.speedUpH = false → s.speedUpG = false → s.speedUp = false →
      (clockUpdate s).effectiveOrbitTime = s.effectiveOrbitTime + s.deltaTime * orbitSpeed) ∧
    (s.stopMotion = false → (s.speedUpH = true ∨ s.speedUpG = true ∨ s.speedUp = true) →
      (clockUpdate s).effectiveOrbitTime =
        s.effectiveOrbitTime + s.deltaTime * acceleratedSpeed) ∧
    (orbitSpeed : ℝ) = 0.1 ∧ (acceleratedSpeed : ℝ) = 2 := by
  have hos : (orbitSpeed : ℝ) ≠ 0 := by unfold orbitSpeed; norm_num
  refine ⟨?_, ?_, ?_, ?_, rfl, ?_⟩
  · intro h
    simp [clockUpdate, h]
  · intro h
    have h1 : (1.0 : ℝ) = 1 := by norm_num
    simp [clockUpdate, h, or_assoc, h1]
  · intro h h1 h2 h3
    have h4 : (1.0 : ℝ) = 1 := by norm_num
    simp [clockUpdate, h, h1, h2, h3, h4]
  · intro h hacc
    have hb : (s.speedUpH || s.speedUpG || s.speedUp) = true := by
      rcases hacc with h1 | h1 | h1 <;> simp [h1]
    simp only [clockUpdate, h, hb, Bool.not_false, if_true]
    field_simp
    ring
  · unfold acceleratedSpeed
    norm_num

/-- Witness for C2: a stopped clock, a plain frame and an accelerated frame,
each with `deltaTime = 3`. -/
theorem clockUpdate_rule_witness :
    (clockUpdate { (init : SimState ℝ) with deltaTime := 3, stopMotion := true }).effectiveOrbitTime
      = (0.0 : ℝ) ∧
    (clockUpdate { (init : SimState ℝ) with deltaTime := 3 }).effectiveOrbitTime
      = (0.0 : ℝ) + 3 * orbitSpeed ∧
    (clockUpdate { (init : SimState ℝ) with deltaTime := 3, speedUpG := true }).effectiveOrbitTime
      = (0.0 : ℝ) + 3 * acceleratedSpeed :=
  ⟨(clockUpdate_rule { (init : SimState ℝ) with deltaTime := 3, stopMotion := true }).1 rfl,
   (clockUpdate_rule { (init : SimState ℝ) with deltaTime := 3 }).2.2.1 rfl rfl rfl rfl,
   (clockUpdate_rule { (init : SimState ℝ) with deltaTime := 3, speedUpG := true }).2.2.2.1 rfl
     (Or.inr (Or.inl rfl))⟩

/-- C4. At every simulation time `t` the Earth is at `(20 cos t, 0, 10 sin t)`
and the Moon at the Earth position plus `(3 cos 2t, 0, 3 sin 2t)`; at `t = 0`
the Earth is at `(20, 0, 0)` and the Moon at `(23, 0, 0)`. -/
theorem body_positions (t : ℝ) :
    earthPos Real.cos Real.sin t = ⟨20 * Real.cos t, 0, 10 * Real.sin t⟩ ∧
    moonPos Real.cos Real.sin t =
      (earthPos Real.cos Real.sin t).add ⟨3 * Real.cos (2 * t), 0, 3 * Real.sin (2 * t)⟩ ∧
    earthPos Real.cos Real.sin 0 = ⟨20, 0, 0⟩ ∧
    moonPos Real.cos Real.sin 0 = (earthPos Real.cos Real.sin 0).add ⟨3, 0, 0⟩ ∧
    moonPos Real.cos Real.sin 0 = ⟨23, 0, 0⟩ := by
  refine ⟨earthPos_real t, ?_, ?_, ?_, ?_⟩
  · rw [moonPos_real, earthPos_real]
    simp [Vec3.add]
  · rw [earthPos_real]
    simp
  · rw [moonPos_real, earthPos_real]
    simp [Vec3.add]
  · rw [moonPos_real]
    simp
    norm_num

/-- C6. With the J key pressed, whatever the state and the other keys,
`processInput` leaves every control and shadow flag cleared. -/
theorem processInput_reset (k : Keys) (s : SimState ℝ) (hj : k.j = true) :
    (processInput k s).earthInShadow = false ∧ (processInput k s).moonInShadow = false ∧
    (processInput k s).stopMotion = false ∧ (processInput k s).stopRotation = false ∧
    (processInput k s).speedUpG = false ∧ (processInput k s).speedUpH = false ∧
    (processInput k s).speedUp = false := by
  simp [processInput, hj]

/-- Witness for C6: reset from `earthInShadow = true`, `stopMotion = true`, with
H and G held as well. -/
theorem processInput_reset_witness :
    (processInput ⟨false, false, false, false, false, true, true, true⟩
        { (init : SimState ℝ) with earthInShadow := true, stopMotion := true }).earthInShadow = false ∧
    (processInput ⟨false, false, false, false, false, true, true, true⟩
        { (init : SimState ℝ) with earthInShadow := true, stopMotion := true }).moonInShadow = false ∧
    (processInput ⟨false, false, false, false, false, true, true, true⟩
        { (init : SimState ℝ) with earthInShadow := true, stopMotion := true }).stopMotion = false ∧
    (processInput ⟨false, false, false, false, false, true, true, true⟩
        { (init : SimState ℝ) with earthInShadow := true, stopMotion := true }).stopRotation = false :=
  have h := processInput_reset ⟨false, false, false, false, false, true, true, true⟩
    { (init : SimState ℝ) with earthInShadow := true, stopMotion := true } rfl
  ⟨h.1, h.2.1, h.2.2.1, h.2.2.2.1⟩

/-- C10. In every state reached from the initial state by frame steps,
`speedUpG` and `speedUpH` are not both set, and `earthInShadow` and
`moonInShadow` are not both set. -/
theorem flags_mutually_exclusive (frames : List (ℝ × Keys)) :
    ¬ ((runFrames Real.cos Real.sin Real.sqrt init frames).speedUpG = true ∧
        (runFrames Real.cos Real.sin Real.sqrt init frames).speedUpH = true) ∧
    ¬ ((runFrames Real.cos Real.sin Real.sqrt init frames).earthInShadow = true ∧
        (runFrames Real.cos Real.sin Real.sqrt init frames).moonInShadow = true) := by
  have h := flagInv_runFrames Real.cos Real.sin Real.sqrt frames init flagInv_init
  exact ⟨h.1, h.2.1⟩

end Frame

/-! ## Persistence of the frozen state, and the geometry of the trigger -/

section Persistence

/-- A frame with only H held, from the frozen Earth-eclipse state at `t = π`. -/
theorem frameStep_H_at_pi :
    frameStep Real.cos Real.sin Real.sqrt 0 keysH (frozenEarthEclipse Real.pi) =
      armedH Real.pi := by
  have h0 : (0.0 : ℝ) = 0 := by norm_num
  have hstep : clockUpdate (processInput keysH
      { frozenEarthEclipse Real.pi with deltaTime := 0 - (0.0 : ℝ), lastFrame := 0 }) =
      armedH Real.pi := by
    simp [clockUpdate, processInput, init, h0, keysH, frozenEarthEclipse, armedH]
  simp only [frameStep]
  have hinit : (frozenEarthEclipse Real.pi).lastFrame = 0.0 := rfl
  simp only [hinit]
  rw [hstep]
  have hd : ¬ (dotProduct Real.sqrt (earthPos Real.cos Real.sin Real.pi)
      (moonPos Real.cos Real.sin Real.pi) > 1.0 - 0.005) := by
    rw [dotProduct_pi]; norm_num
  have ht : (armedH Real.pi).effectiveOrbitTime = Real.pi := rfl
  rw [ht]
  simp [eclipseDetector, hd, init, armedH]

/-- C7, counterexample. From the frozen Earth-eclipse state at `t = π`, a frame
with only the H key held (J not pressed) clears `earthInShadow`, `stopMotion`
and `stopRotation`. -/
theorem shadow_cleared_without_reset :
    keysH.j = false ∧
    (frozenEarthEclipse Real.pi).earthInShadow = true ∧
    (frozenEarthEclipse Real.pi).stopMotion = true ∧
    (frozenEarthEclipse Real.pi).stopRotation = true ∧
    (frameStep Real.cos Real.sin Real.sqrt 0 keysH
      (frozenEarthEclipse Real.pi)).earthInShadow = false ∧
    (frameStep Real.cos Real.sin Real.sqrt 0 keysH
      (frozenEarthEclipse Real.pi)).stopMotion = false ∧
    (frameStep Real.cos Real.sin Real.sqrt 0 keysH
      (frozenEarthEclipse Real.pi)).stopRotation = false := by
  rw [frameStep_H_at_pi]
  exact ⟨rfl, rfl, rfl, rfl, rfl, rfl, rfl⟩

/-- C7, amended. In a frame step without the J key: `earthInShadow` stays set
unless H is pressed, `moonInShadow` stays set unless G is pressed, and
`stopMotion` and `stopRotation` stay set unless H or G is pressed. -/
theorem shadow_persists (currentFrame : ℝ) (k : Keys) (s : SimState ℝ) (hj : k.j = false) :
    (k.h = false → s.earthInShadow = true →
      (frameStep Real.cos Real.sin Real.sqrt currentFrame k s).earthInShadow = true) ∧
    (k.g = false → s.moonInShadow = true →
      (frameStep Real.cos Real.sin Real.sqrt currentFrame k s).moonInShadow = true) ∧
    (k.h = false → k.g = false → s.stopMotion = true →
      (frameStep Real.cos Real.sin Real.sqrt currentFrame k s).stopMotion = true) ∧
    (k.h = false → k.g = false → s.stopRotation = true →
      (frameStep Real.cos Real.sin Real.sqrt currentFrame k s).stopRotation = true) := by
  simp only [frameStep]
  generalize hs0 : ({ s with deltaTime := currentFrame - s.lastFrame, lastFrame := currentFrame } : SimState ℝ) = s0
  have e1 : s0.earthInShadow = s.earthInShadow := by rw [← hs0]
  have e2 : s0.moonInShadow = s.moonInShadow := by rw [← hs0]
  have e3 : s0.stopMotion = s.stopMotion := by rw [← hs0]
  have e4 : s0.stopRotation = s.stopRotation := by rw [← hs0]
  obtain ⟨-, c2, -, -, c5, c6, c7⟩ := clockUpdate_flags (processInput k s0)
  generalize (earthPos Real.cos Real.sin (clockUpdate (processInput k s0)).effectiveOrbitTime) = e
  generalize (moonPos Real.cos Real.sin (clockUpdate (processInput k s0)).effectiveOrbitTime) = m
  obtain ⟨m1, m2, m3, m4⟩ :=
    eclipseDetector_mono Real.sqrt e m (clockUpdate (processInput k s0))
  rw [c6] at m1
  rw [c7] at m2
  rw [c2] at m3
  rw [c5] at m4
  refine ⟨?_, ?_, ?_, ?_⟩
  · intro hh hs
    apply m1
    rw [← e1] at hs
    cases hg : k.g <;> simp [processInput, hj, hh, hg, hs]
  · intro hg hs
    apply m2
    rw [← e2] at hs
    cases hh : k.h <;> simp [processInput, hj, hh, hg, hs]
  · intro hh hg hs
    apply m3
    rw [← e3] at hs
    simp [processInput, hj, hh, hg, hs]
  · intro hh hg hs
    apply m4
    rw [← e4] at hs
    simp [processInput, hj, hh, hg, hs]

/-- Witness for C7, amended: the frozen Earth-eclipse state at `t = π` stays
frozen through a frame in which only W is held. -/
theorem shadow_persists_witness :
    (frameStep Real.cos Real.sin Real.sqrt 1 keysW
      (frozenEarthEclipse Real.pi)).earthInShadow = true ∧
    (frameStep Real.cos Real.sin Real.sqrt 1 keysW
      (frozenEarthEclipse Real.pi)).stopMotion = true ∧
    (frameStep Real.cos Real.sin Real.sqrt 1 keysW
      (frozenEarthEclipse Real.pi)).stopRotation = true :=
  have h := shadow_persists 1 keysW (frozenEarthEclipse Real.pi) rfl
  ⟨h.1 rfl rfl, h.2.2.1 rfl rfl rfl, h.2.2.2 rfl rfl rfl⟩

end Persistence

/-! ## Geometry of the Earth-eclipse trigger -/

section Geometry

/-- C9, amended. For every simulation time `t` whose body positions satisfy
`dotProduct < -1 + 0.005`, the Moon is in front of the Earth as seen from the
Sun: it is nearer to the Sun than the Earth is, `|moonPos| < |earthPos|`. -/
theorem earth_eclipse_geometry (t : ℝ)
    (hd : dotProduct Real.sqrt (earthPos Real.cos Real.sin t) (moonPos Real.cos Real.sin t)
      < -1 + 0.005) :
    length Real.sqrt (moonPos Real.cos Real.sin t) <
      length Real.sqrt (earthPos Real.cos Real.sin t) := by
  rw [dotProduct_real] at hd
  rw [earthPos_real, moonPos_real]
  simp only [length, dot]
  set c := Real.cos t with hc
  set s := Real.sin t with hs
  set c2 := Real.cos (2 * t) with hc2
  set s2 := Real.sin (2 * t) with hs2
  have h1 : s ^ 2 + c ^ 2 = 1 := Real.sin_sq_add_cos_sq t
  have h2 : s2 ^ 2 + c2 ^ 2 = 1 := Real.sin_sq_add_cos_sq (2 * t)
  have hpos : 0 < 400 * c ^ 2 + 100 * s ^ 2 := by nlinarith [sq_nonneg c, sq_nonneg s]
  set N := Real.sqrt (400 * c ^ 2 + 100 * s ^ 2) with hN
  have hNsq : N * N = 400 * c ^ 2 + 100 * s ^ 2 := Real.mul_self_sqrt hpos.le
  have hN0 : 0 ≤ N := Real.sqrt_nonneg _
  have hN10 : 10 ≤ N := by
    by_contra hlt
    push_neg at hlt
    nlinarith [sq_nonneg c, sq_nonneg s]
  have h3N : 0 < 3 * N := by linarith
  have ha : 20 * c * (3 * c2) + 10 * s * (3 * s2) < (-1 + 0.005) * (3 * N) :=
    (div_lt_iff₀ h3N).mp hd
  apply Real.sqrt_lt_sqrt
  · nlinarith [mul_self_nonneg (20 * c + 3 * c2), mul_self_nonneg (10 * s + 3 * s2)]
  · norm_num at ha
    nlinarith

/-- At `t = π` the Earth is at distance `20` and the Moon at distance `17`
from the Sun. -/
theorem lengths_at_pi :
    length Real.sqrt (earthPos Real.cos Real.sin Real.pi) = 20 ∧
    length Real.sqrt (moonPos Real.cos Real.sin Real.pi) = 17 := by
  rw [earthPos_real, moonPos_real]
  simp only [length, dot]
  have e1 : Real.cos (2 * Real.pi) = 1 := Real.cos_two_pi
  have e2 : Real.sin (2 * Real.pi) = 0 := Real.sin_two_pi
  rw [e1, e2, Real.cos_pi, Real.sin_pi]
  constructor
  · have : (20 * (-1 : ℝ)) * (20 * -1) + 0 * 0 + (10 * 0) * (10 * 0) = 20 ^ 2 := by norm_num
    rw [this, Real.sqrt_sq (by norm_num)]
  · have : (20 * (-1 : ℝ) + 3 * 1) * (20 * -1 + 3 * 1) + 0 * 0 +
        (10 * 0 + 3 * 0) * (10 * 0 + 3 * 0) = 17 ^ 2 := by norm_num
    rw [this, Real.sqrt_sq (by norm_num)]

/-- C9, counterexample. At `t = π` the Earth-eclipse condition holds
(`dotProduct = -1`), yet the Moon is at distance `17` from the Sun and the
Earth at distance `20`: the Moon is not farther from the Sun than the Earth. -/
theorem moon_not_behind_earth_at_pi :
    dotProduct Real.sqrt (earthPos Real.cos Real.sin Real.pi)
      (moonPos Real.cos Real.sin Real.pi) < -1 + 0.005 ∧
    ¬ (length Real.sqrt (moonPos Real.cos Real.sin Real.pi) >
        length Real.sqrt (earthPos Real.cos Real.sin Real.pi)) := by
  rw [dotProduct_pi, lengths_at_pi.1, lengths_at_pi.2]
  norm_num

/-- Witness for C9, amended, at `t = π`. -/
theorem earth_eclipse_geometry_witness :
    length Real.sqrt (moonPos Real.cos Real.sin Real.pi) <
      length Real.sqrt (earthPos Real.cos Real.sin Real.pi) :=
  earth_eclipse_geometry Real.pi (by rw [dotProduct_pi]; norm_num)

end Geometry

/-! ## The orbit polyline -/

section OrbitProofs

/-- A loop that appends one element per index builds the mapped list. -/
theorem foldl_append_singleton {β γ : Type} (f : γ → β) (l : List γ) :
    ∀ acc : List β, l.foldl (fun verts i => verts ++ [f i]) acc = acc ++ l.map f := by
  induction l with
  | nil => intro acc; simp
  | cons a rest ih =>
      intro acc
      simp [List.foldl_cons, ih]

/-- The cast to `int` keeps a size below `2 ^ 31`. -/
theorem castInt_of_lt (n : Nat) (h : (n : Int) < 2147483648) : castInt n = n := by
  unfold castInt
  omega

/-- The vertex list of `createOrbitVAO` for a non-negative `segments`. -/
theorem createOrbitVAO_eq (segments : Int) (radiusX radiusZ : ℝ) (h0 : 0 ≤ segments) :
    createOrbitVAO Real.cos Real.sin Real.pi segments radiusX radiusZ =
      some ((List.range segments.toNat).map (fun i : Nat =>
          (⟨radiusX * Real.cos (2 * Real.pi * (i : ℝ) / (segments : ℝ)), 0,
            radiusZ * Real.sin (2 * Real.pi * (i : ℝ) / (segments : ℝ))⟩ : Vec3 ℝ)),
        castInt segments.toNat) := by
  have h20 : (2.0 : ℝ) = 2 := by norm_num
  have h00 : (0.0 : ℝ) = 0 := by norm_num
  have hf := foldl_append_singleton (fun i : Nat =>
      (⟨radiusX * Real.cos (2 * Real.pi * (i : ℝ) / (segments : ℝ)), 0,
        radiusZ * Real.sin (2 * Real.pi * (i : ℝ) / (segments : ℝ))⟩ : Vec3 ℝ))
    (List.range segments.toNat) []
  unfold createOrbitVAO
  rw [if_neg (by omega)]
  simp only [h20, h00]
  rw [hf]
  simp

/-- C3. For `segments ≥ 3` (an `int`) and positive radii, `createOrbitVAO`
returns the count `segments` and a vertex list of exactly `segments` points,
point `i` being `(radiusX cos (2π i / segments), 0, radiusZ sin (2π i / segments))`.
For `segments = 256`, `radiusX = 20`, `radiusZ = 10`, point `0` is `(20, 0, 0)`
and point `64` is `(0, 0, 10)`. -/
theorem createOrbitVAO_points (segments : Int) (radiusX radiusZ : ℝ)
    (h3 : 3 ≤ segments) (hmax : segments ≤ 2147483647) (_hx : 0 < radiusX)
    (_hz : 0 < radiusZ) :
    (∃ verts : List (Vec3 ℝ),
      createOrbitVAO Real.cos Real.sin Real.pi segments radiusX radiusZ =
        some (verts, segments) ∧
      (verts.length : Int) = segments ∧
      ∀ i : Nat, (i : Int) < segments →
        verts[i]? = some ⟨radiusX * Real.cos (2 * Real.pi * (i : ℝ) / (segments : ℝ)), 0,
          radiusZ * Real.sin (2 * Real.pi * (i : ℝ) / (segments : ℝ))⟩) ∧
    (∃ verts : List (Vec3 ℝ),
      createOrbitVAO Real.cos Real.sin Real.pi 256 20 10 = some (verts, 256) ∧
      verts.length = 256 ∧
      verts[0]? = some ⟨20, 0, 0⟩ ∧ verts[64]? = some ⟨0, 0, 10⟩) := by
  constructor
  · refine ⟨(List.range segments.toNat).map (fun i : Nat =>
        (⟨radiusX * Real.cos (2 * Real.pi * (i : ℝ) / (segments : ℝ)), 0,
          radiusZ * Real.sin (2 * Real.pi * (i : ℝ) / (segments : ℝ))⟩ : Vec3 ℝ)), ?_, ?_, ?_⟩
    · rw [createOrbitVAO_eq segments radiusX radiusZ (by omega)]
      rw [castInt_of_lt _ (by omega)]
      congr 2
      omega
    · simp
      omega
    · intro i hi
      have hlt : i < segments.toNat := by omega
      simp [List.getElem?_map, List.getElem?_range hlt]
  · refine ⟨(List.range (256 : Int).toNat).map (fun i : Nat =>
        (⟨20 * Real.cos (2 * Real.pi * (i : ℝ) / ((256 : Int) : ℝ)), 0,
          10 * Real.sin (2 * Real.pi * (i : ℝ) / ((256 : Int) : ℝ))⟩ : Vec3 ℝ)), ?_, ?_, ?_, ?_⟩
    · rw [createOrbitVAO_eq 256 20 10 (by norm_num)]
      rfl
    · simp
    · have hlt : 0 < (256 : Int).toNat := by decide
      simp [List.getElem?_map, List.getElem?_range hlt]
    · have h64 : (2 * Real.pi * (64 : ℝ) / (256 : ℝ)) = Real.pi / 2 := by ring
      have hlt : 64 < (256 : Int).toNat := by decide
      simp only [List.getElem?_map, List.getElem?_range hlt, Option.map_some']
      norm_num
      rw [h64]
      simp

/-- Witness for C3: the Moon orbit of the program, `createOrbitVAO (128, 3, 3)`. -/
theorem createOrbitVAO_points_witness :
    ∃ verts : List (Vec3 ℝ),
      createOrbitVAO Real.cos Real.sin Real.pi 128 3 3 = some (verts, 128) ∧
      (verts.length : Int) = 128 ∧
      ∀ i : Nat, (i : Int) < 128 →
        verts[i]? = some ⟨3 * Real.cos (2 * Real.pi * (i : ℝ) / ((128 : Int) : ℝ)), 0,
          3 * Real.sin (2 * Real.pi * (i : ℝ) / ((128 : Int) : ℝ))⟩ :=
  (createOrbitVAO_points 128 3 3 (by norm_num) (by norm_num) (by norm_num) (by norm_num)).1

end OrbitProofs

/-! ## The model matrices -/

section ModelMatrices

/-- C8. In every frame the model matrices are `translate * rotate * scale`:
`modelSun` is the scaling by `4` (translation by `0` and rotation by angle `0`
being the identity), `modelEarth` is
`translate (earthPos) * rotate (time * earthRotationSpeed, Y) * scale (1)` and
`modelMoon` is `translate (moonPos) * rotate (time * moonRotationSpeed, Y) * scale (0.4)`. -/
theorem model_matrices (effectiveOrbitTime time : ℝ) (stopRotation : Bool) :
    (modelSun : Mat4 ℝ) = scale Mat4.identity (vec3 4) ∧
    (modelSun : Mat4 ℝ) =
      ((translate Mat4.identity ⟨0, 0, 0⟩).mul
        (rotate Real.cos Real.sin Real.sqrt Mat4.identity 0 ⟨0, 1, 0⟩)).mul
        (scale Mat4.identity (vec3 4)) ∧
    modelEarth Real.cos Real.sin Real.sqrt effectiveOrbitTime time stopRotation =
      ((translate Mat4.identity (earthPos Real.cos Real.sin effectiveOrbitTime)).mul
        (rotate Real.cos Real.sin Real.sqrt Mat4.identity
          (time * earthRotationSpeed stopRotation) ⟨0, 1, 0⟩)).mul
        (scale Mat4.identity (vec3 1)) ∧
    modelMoon Real.cos Real.sin Real.sqrt effectiveOrbitTime time stopRotation =
      ((translate Mat4.identity (moonPos Real.cos Real.sin effectiveOrbitTime)).mul
        (rotate Real.cos Real.sin Real.sqrt Mat4.identity
          (time * moonRotationSpeed stopRotation) ⟨0, 1, 0⟩)).mul
        (scale Mat4.identity (vec3 0.4)) := by
  have h1 : (1.0 : ℝ) = 1 := by norm_num
  have h0 : (0.0 : ℝ) = 0 := by norm_num
  have h4 : (4.0 : ℝ) = 4 := by norm_num
  refine ⟨?_, ?_, ?_, ?_⟩
  · simp [modelSun, h4]
  · simp [modelSun, scale, translate, rotate, Mat4.mul, Mat4.mulVec, Mat4.identity, vec3,
      normalize, inversesqrt, dot, Vec3.scale, Vec3.lscale, Vec4.scale, Vec4.add, h4]
  · simp only [modelEarth, scale, translate, rotate, Mat4.mul, Mat4.mulVec, Mat4.identity, vec3,
      normalize, inversesqrt, dot, Vec3.scale, Vec3.lscale, Vec4.scale, Vec4.add, h1,
      Mat4.mk.injEq, Vec4.mk.injEq]
    refine ⟨⟨?_, ?_, ?_, ?_⟩, ⟨?_, ?_, ?_, ?_⟩, ⟨?_, ?_, ?_, ?_⟩, ⟨?_, ?_, ?_, ?_⟩⟩ <;> ring
  · simp only [modelMoon, scale, translate, rotate, Mat4.mul, Mat4.mulVec, Mat4.identity, vec3,
      normalize, inversesqrt, dot, Vec3.scale, Vec3.lscale, Vec4.scale, Vec4.add, h1, h0,
      Mat4.mk.injEq, Vec4.mk.injEq]
    refine ⟨⟨?_, ?_, ?_, ?_⟩, ⟨?_, ?_, ?_, ?_⟩, ⟨?_, ?_, ?_, ?_⟩, ⟨?_, ?_, ?_, ?_⟩⟩ <;> ring

end ModelMatrices

end SunEarthMoon
